import Mathlib

/-!
Verification of the WhatsApp auto-reply bot (`src/index.js`).

The source keeps five pieces of mutable process-level state
(`latestQRCode`, `isReady`, `isInitializing`, `reconnectAttempts`,
`repliedNumbers`) and reacts to lifecycle events emitted by the
messaging-client collaborator.  We embed that state as `BotState`, the
events as `Event`, and every handler body as the pure step function
`step : BotState → Event → BotState × Effect`, where `Effect` records
the externally visible actions of one handler invocation (reply-send
attempts, scheduled reinitialize timers, `client.initialize()` calls).

External fallible collaborators (the reply send, the QR data-URL
encoder, `client.initialize()`, `JSON.parse` / `JSON.stringify`) are
modelled by explicit success/failure parameters, matching the
`try`/`catch` structure of the source.
-/

/-- `MAX_RECONNECT_ATTEMPTS` from src/index.js line 39. -/
def MAX_RECONNECT_ATTEMPTS : Nat := 5

/-- `RECONNECT_DELAY` (milliseconds) from src/index.js line 40. -/
def RECONNECT_DELAY : Nat := 10000

/-- The fixed greeting text from src/index.js line 189. -/
def replyMessage : String :=
  "Hello! 👋 Thanks for messaging IBETIN. We will get back to you shortly."

/-- The mutable process state of src/index.js (lines 35–45). -/
structure BotState where
  latestQRCode : Option String
  isReady : Bool
  isInitializing : Bool
  reconnectAttempts : Nat
  repliedNumbers : List String
deriving Repr, DecidableEq

/-- The externally visible actions performed by one handler invocation. -/
structure Effect where
  sendAttempts : Nat
  sentText : Option String
  scheduledDelay : Option Nat
  initializeCalled : Bool
deriving Repr, DecidableEq

/-- The empty effect: a handler that touched no collaborator. -/
def Effect.noop : Effect :=
  { sendAttempts := 0, sentText := Option.none,
    scheduledDelay := Option.none, initializeCalled := false }

/-- Lifecycle events consumed by the controller, plus the two deferred
continuations of the source (`timerFire`: a scheduled reinitialize timer
firing, src/index.js lines 146–155; `initResult`: the
`client.initialize()` promise settling, lines 150–153).  Fallible
external calls carry an explicit success flag (`encodeOk` for
`qrcode.toDataURL`, `sendOk` for `msg.reply`). -/
inductive Event where
  | qr (payload : String) (encodeOk : Bool)
  | ready
  | authenticated
  | authFailure
  | disconnected
  | loadingScreen
  | errorEvt
  | message (sender : String) (sendOk : Bool)
  | timerFire
  | initResult (ok : Bool)
deriving Repr, DecidableEq

/-- JavaScript `String.prototype.endsWith` (used at src/index.js line
176), modelled on the character list of the string. -/
def jsEndsWith (s suffix : String) : Bool :=
  suffix.data.isSuffixOf s.data

/-- One handler invocation, transcribed from the `client.on(...)` and
`setTimeout` bodies of src/index.js (lines 95–210 and 146–155). -/
def step (st : BotState) : Event → BotState × Effect
  | Event.qr payload encodeOk =>
      -- lines 95–104: on success cache the QR, drop readiness, reset the
      -- counter; on `toDataURL` failure the catch leaves the state as is.
      if encodeOk then
        ({ st with latestQRCode := some payload, isReady := false,
                   reconnectAttempts := 0 }, Effect.noop)
      else (st, Effect.noop)
  | Event.ready =>
      -- lines 109–115
      ({ st with isReady := true, isInitializing := false,
                 reconnectAttempts := 0, latestQRCode := Option.none },
       Effect.noop)
  | Event.authenticated => (st, Effect.noop)
  | Event.authFailure =>
      -- lines 127–131: only `isReady` and `isInitializing` are touched.
      ({ st with isReady := false, isInitializing := false }, Effect.noop)
  | Event.disconnected =>
      -- lines 136–159
      let st1 := { st with isReady := false, latestQRCode := Option.none }
      if st1.reconnectAttempts < MAX_RECONNECT_ATTEMPTS ∧
         st1.isInitializing = false then
        let st2 := { st1 with reconnectAttempts := st1.reconnectAttempts + 1 }
        (st2, { Effect.noop with
                  scheduledDelay :=
                    some (RECONNECT_DELAY * st2.reconnectAttempts) })
      else (st1, Effect.noop)
  | Event.loadingScreen => (st, Effect.noop)
  | Event.errorEvt => (st, Effect.noop)
  | Event.message sender sendOk =>
      -- lines 171–203
      if jsEndsWith sender "@g.us" then (st, Effect.noop)
      else if sender = "status@broadcast" then (st, Effect.noop)
      else if st.repliedNumbers.contains sender then (st, Effect.noop)
      else if sendOk then
        -- `await msg.reply(...)` succeeded, so the push and save run.
        ({ st with repliedNumbers := st.repliedNumbers ++ [sender] },
         { Effect.noop with sendAttempts := 1, sentText := some replyMessage })
      else
        -- `msg.reply` threw: the catch at line 200 skips the push.
        (st, { Effect.noop with sendAttempts := 1,
                                sentText := some replyMessage })
  | Event.timerFire =>
      -- lines 146–155: the fire-time conditional guard.
      if st.isInitializing = false ∧ st.isReady = false then
        ({ st with isInitializing := true },
         { Effect.noop with initializeCalled := true })
      else (st, Effect.noop)
  | Event.initResult ok =>
      -- lines 150–153: a rejected initialize clears the flag.
      if ok then (st, Effect.noop)
      else ({ st with isInitializing := false }, Effect.noop)

/-- The process state right after startup (lines 35–45 initialise the
globals, line 216 sets `isInitializing = true` before the first
`client.initialize()`); `store` is whatever `loadRepliedNumbers` put in
`repliedNumbers`. -/
def initState (store : List String) : BotState :=
  { latestQRCode := Option.none, isReady := false, isInitializing := true,
    reconnectAttempts := 0, repliedNumbers := store }

/-- Driving the controller through a list of events. -/
def run (st : BotState) : List Event → BotState
  | [] => st
  | e :: es => run (step st e).1 es

/-- The delays scheduled by a run of `n` consecutive `disconnected`
events (one backoff run). -/
def discDelays (st : BotState) : Nat → List Nat
  | 0 => []
  | n + 1 =>
      (step st Event.disconnected).2.scheduledDelay.toList
        ++ discDelays (step st Event.disconnected).1 n

/-- `loadRepliedNumbers` (src/index.js lines 46–57).  The file system is
abstracted as `Option String` (`none` = `fs.existsSync` false) and
`JSON.parse` as a fallible external `parse` (`none` = it threw, caught
at line 52).  The initial value of `repliedNumbers` is `[]` (line 45),
kept when the file is missing. -/
def loadRepliedNumbers (file : Option String)
    (parse : String → Option (List String)) : List String :=
  match file with
  | Option.none => []
  | some data =>
      match parse data with
      | some numbers => numbers
      | Option.none => []

/-- `saveRepliedNumbers` (lines 59–65) on the success path: the file now
holds the serialized list (`JSON.stringify` abstracted as `serialize`). -/
def saveRepliedNumbers (serialize : List String → String)
    (numbers : List String) : Option String :=
  some (serialize numbers)

/-- The store mutation of the message handler (lines 188 and 195): push
the sender only when `repliedNumbers.includes(sender)` is false. -/
def markReplied (store : List String) (id : String) : List String :=
  if store.contains id then store else store ++ [id]

/-- Membership test, `repliedNumbers.includes` (line 188). -/
def hasReplied (store : List String) (id : String) : Bool :=
  store.contains id

/-- The sender classification implicit in the guard order of the message
handler (lines 176–185). -/
inductive SenderClass where
  | group
  | broadcast
  | priv
deriving Repr, DecidableEq

/-- Classify a sender id exactly as the message handler's guards do:
the group check (line 176) runs first, then the broadcast sentinel check
(line 182); everything else is private. -/
def classify (sender : String) : SenderClass :=
  if jsEndsWith sender "@g.us" then SenderClass.group
  else if sender = "status@broadcast" then SenderClass.broadcast
  else SenderClass.priv

/-! ## Helper lemmas about the reply store -/

theorem contains_true_iff {l : List String} {a : String} :
    l.contains a = true ↔ a ∈ l := by
  simp [List.contains, List.elem_iff]

theorem contains_false_iff {l : List String} {a : String} :
    l.contains a = false ↔ a ∉ l := by
  rw [← contains_true_iff]
  cases l.contains a <;> simp

theorem contains_append_self (l : List String) (a : String) :
    (l ++ [a]).contains a = true := by
  rw [contains_true_iff]
  simp

theorem contains_markReplied (store : List String) (id : String) :
    (markReplied store id).contains id = true := by
  unfold markReplied
  split
  next h => exact h
  next h => exact contains_append_self store id

/-! ## Reduction lemmas for the message handler -/

theorem step_message_group (st : BotState) (sender : String) (sendOk : Bool)
    (hg : jsEndsWith sender "@g.us" = true) :
    step st (Event.message sender sendOk) = (st, Effect.noop) := by
  simp only [step]
  rw [if_pos hg]

theorem step_message_broadcast (st : BotState) (sender : String)
    (sendOk : Bool) (hb : sender = "status@broadcast") :
    step st (Event.message sender sendOk) = (st, Effect.noop) := by
  simp only [step]
  by_cases hg : jsEndsWith sender "@g.us" = true
  · rw [if_pos hg]
  · rw [if_neg hg, if_pos hb]

theorem step_message_replied (st : BotState) (sender : String) (sendOk : Bool)
    (hg : jsEndsWith sender "@g.us" = false)
    (hb : sender ≠ "status@broadcast")
    (hr : st.repliedNumbers.contains sender = true) :
    step st (Event.message sender sendOk) = (st, Effect.noop) := by
  simp only [step]
  rw [if_neg (by simp [hg]), if_neg hb, if_pos hr]

theorem step_message_fresh (st : BotState) (sender : String) (sendOk : Bool)
    (hg : jsEndsWith sender "@g.us" = false)
    (hb : sender ≠ "status@broadcast")
    (hf : st.repliedNumbers.contains sender = false) :
    step st (Event.message sender sendOk) =
      if sendOk then
        ({ st with repliedNumbers := st.repliedNumbers ++ [sender] },
         { Effect.noop with sendAttempts := 1, sentText := some replyMessage })
      else
        (st, { Effect.noop with sendAttempts := 1,
                                sentText := some replyMessage }) := by
  simp only [step]
  rw [if_neg (by simp [hg]), if_neg hb, if_neg (by rw [hf]; simp)]

/-! ## Inversion lemmas for the classification -/

theorem classify_group_or_broadcast {s : String}
    (h : classify s = SenderClass.group ∨ classify s = SenderClass.broadcast) :
    jsEndsWith s "@g.us" = true ∨ s = "status@broadcast" := by
  unfold classify at h
  rcases h with h | h
  · split at h
    next hg => exact Or.inl hg
    next hg => split at h <;> exact absurd h (by decide)
  · split at h
    next hg => exact absurd h (by decide)
    next hg =>
      split at h
      next hb => exact Or.inr hb
      next hb => exact absurd h (by decide)

theorem classify_priv_inv {s : String}
    (h : classify s = SenderClass.priv) :
    jsEndsWith s "@g.us" = false ∧ s ≠ "status@broadcast" := by
  unfold classify at h
  split at h
  next hg => exact absurd h (by decide)
  next hg =>
    split at h
    next hb => exact absurd h (by decide)
    next hb => exact ⟨by simpa using hg, hb⟩

/-! ## C5: markReplied is idempotent -/

/-- Claim C5: `markReplied` is idempotent — for every correspondent id
already present in the store, invoking `markReplied` with that id again
leaves the list (hence the set size and contents) unchanged; in
particular two consecutive calls with the same id are the same as one. -/
theorem c5_markReplied_idempotent (store : List String) (id : String)
    (h : store.contains id = true) :
    markReplied store id = store ∧
    ∀ s : List String, markReplied (markReplied s id) id = markReplied s id := by
  have key : ∀ l : List String, l.contains id = true → markReplied l id = l := by
    intro l hl
    unfold markReplied
    exact if_pos hl
  exact ⟨key store h, fun s => key (markReplied s id) (contains_markReplied s id)⟩

/-- Witness for C5 at the concrete store `["a@c.us"]`. -/
theorem c5_markReplied_idempotent_witness :
    markReplied ["a@c.us"] "a@c.us" = ["a@c.us"] ∧
    markReplied (markReplied [] "a@c.us") "a@c.us" = markReplied [] "a@c.us" :=
  ⟨(c5_markReplied_idempotent ["a@c.us"] "a@c.us" (by decide)).1,
   (c5_markReplied_idempotent ["a@c.us"] "a@c.us" (by decide)).2 []⟩

/-! ## C6: load never raises; missing or corrupt file yields the empty store -/

/-- Claim C6: `loadRepliedNumbers` is a total function (it never raises
to the caller); a missing file yields the empty store, and a file whose
contents fail to parse (the `JSON.parse` abstraction returns failure,
caught at src/index.js line 52) also yields the empty store. -/
theorem c6_load_missing_or_corrupt_empty
    (parse : String → Option (List String)) :
    loadRepliedNumbers Option.none parse = [] ∧
    ∀ data : String, parse data = Option.none →
      loadRepliedNumbers (some data) parse = [] := by
  refine ⟨rfl, fun data h => ?_⟩
  simp [loadRepliedNumbers, h]

/-- Witness for C6 with a parser that rejects everything (a corrupt
file) and a missing file. -/
theorem c6_load_missing_or_corrupt_empty_witness :
    loadRepliedNumbers Option.none (fun _ => Option.none) = [] ∧
    loadRepliedNumbers (some "not json") (fun _ => Option.none) = [] :=
  ⟨(c6_load_missing_or_corrupt_empty (fun _ => Option.none)).1,
   (c6_load_missing_or_corrupt_empty (fun _ => Option.none)).2 "not json" rfl⟩

/-! ## C7: group / broadcast senders are ignored -/

/-- Claim C7: for every message event whose sender id is classified
group or broadcast, the handler makes no send attempt and performs no
store mutation (the state is unchanged, so membership of that id stays
exactly what it was — in particular false stays false). -/
theorem c7_group_broadcast_ignored (st : BotState) (sender : String)
    (sendOk : Bool)
    (h : classify sender = SenderClass.group ∨
         classify sender = SenderClass.broadcast) :
    (step st (Event.message sender sendOk)).1 = st ∧
    (step st (Event.message sender sendOk)).2.sendAttempts = 0 ∧
    (step st (Event.message sender sendOk)).1.repliedNumbers.contains sender
      = st.repliedNumbers.contains sender := by
  have hstep : step st (Event.message sender sendOk) = (st, Effect.noop) := by
    rcases classify_group_or_broadcast h with hg | hb
    · exact step_message_group st sender sendOk hg
    · exact step_message_broadcast st sender sendOk hb
  rw [hstep]
  exact ⟨rfl, rfl, rfl⟩

/-- Witness for C7 at the group id `"123-456@g.us"`. -/
theorem c7_group_broadcast_ignored_witness :
    (step (initState []) (Event.message "123-456@g.us" true)).1 = initState [] ∧
    (step (initState []) (Event.message "123-456@g.us" true)).2.sendAttempts = 0 ∧
    (step (initState []) (Event.message "123-456@g.us" true)).1.repliedNumbers.contains "123-456@g.us"
      = (initState []).repliedNumbers.contains "123-456@g.us" :=
  c7_group_broadcast_ignored (initState []) "123-456@g.us" true
    (Or.inl (by decide))

/-! ## C1: fresh private sender gets exactly one greeting -/

/-- Claim C1: for a message event from a fresh private sender (one not
in the ReplyStore), the handler makes exactly one send attempt with the
fixed greeting text and, the send succeeding, marks the sender replied
exactly once; a second message event from the same sender afterwards
makes zero further send attempts and leaves the state unchanged. -/
theorem c1_fresh_private_single_reply (st : BotState) (sender : String)
    (sendOk2 : Bool)
    (hg : jsEndsWith sender "@g.us" = false)
    (hb : sender ≠ "status@broadcast")
    (hf : st.repliedNumbers.contains sender = false) :
    (step st (Event.message sender true)).2.sendAttempts = 1 ∧
    (step st (Event.message sender true)).2.sentText = some replyMessage ∧
    (step st (Event.message sender true)).1.repliedNumbers.count sender = 1 ∧
    (step (step st (Event.message sender true)).1
       (Event.message sender sendOk2)).2.sendAttempts = 0 ∧
    (step (step st (Event.message sender true)).1
       (Event.message sender sendOk2)).1
      = (step st (Event.message sender true)).1 := by
  have h1 : step st (Event.message sender true) =
      ({ st with repliedNumbers := st.repliedNumbers ++ [sender] },
       { Effect.noop with sendAttempts := 1, sentText := some replyMessage }) := by
    rw [step_message_fresh st sender true hg hb hf, if_pos rfl]
  have h2 : step ({ st with repliedNumbers := st.repliedNumbers ++ [sender] } : BotState)
      (Event.message sender sendOk2) =
      (({ st with repliedNumbers := st.repliedNumbers ++ [sender] } : BotState),
       Effect.noop) :=
    step_message_replied _ sender sendOk2 hg hb
      (contains_append_self st.repliedNumbers sender)
  have hnm : sender ∉ st.repliedNumbers := contains_false_iff.mp hf
  refine ⟨by rw [h1], by rw [h1], ?_, ?_, ?_⟩
  · rw [h1]
    simp [List.count_append, List.count_eq_zero, hnm]
  · rw [h1]
    exact congrArg (fun p => p.2.sendAttempts) h2
  · rw [h1]
    exact congrArg (fun p => p.1) h2

/-- Witness for C1 at the fresh private id `"2348012345678@c.us"`. -/
theorem c1_fresh_private_single_reply_witness :
    (step (initState []) (Event.message "2348012345678@c.us" true)).2.sendAttempts = 1 ∧
    (step (initState []) (Event.message "2348012345678@c.us" true)).2.sentText = some replyMessage ∧
    (step (initState []) (Event.message "2348012345678@c.us" true)).1.repliedNumbers.count "2348012345678@c.us" = 1 ∧
    (step (step (initState []) (Event.message "2348012345678@c.us" true)).1
       (Event.message "2348012345678@c.us" true)).2.sendAttempts = 0 ∧
    (step (step (initState []) (Event.message "2348012345678@c.us" true)).1
       (Event.message "2348012345678@c.us" true)).1
      = (step (initState []) (Event.message "2348012345678@c.us" true)).1 :=
  c1_fresh_private_single_reply (initState []) "2348012345678@c.us" true
    (by decide) (by decide) (by decide)

/-! ## C2: a failed send leaves the store untouched and allows a retry -/

/-- Claim C2: for a message event from a fresh private sender whose
reply send fails, the sender is not marked replied and the whole state
is left unchanged, so a subsequent message event from the same sender
makes another send attempt (whatever that send's outcome flag is). -/
theorem c2_send_failure_no_mark (st : BotState) (sender : String)
    (sendOk2 : Bool)
    (hg : jsEndsWith sender "@g.us" = false)
    (hb : sender ≠ "status@broadcast")
    (hf : st.repliedNumbers.contains sender = false) :
    (step st (Event.message sender false)).1 = st ∧
    (step st (Event.message sender false)).2.sendAttempts = 1 ∧
    (step (step st (Event.message sender false)).1
       (Event.message sender sendOk2)).2.sendAttempts = 1 := by
  have h1 : step st (Event.message sender false) =
      (st, { Effect.noop with sendAttempts := 1,
                              sentText := some replyMessage }) := by
    rw [step_message_fresh st sender false hg hb hf, if_neg (by simp)]
  have h2 : step st (Event.message sender sendOk2) =
      if sendOk2 then
        ({ st with repliedNumbers := st.repliedNumbers ++ [sender] },
         { Effect.noop with sendAttempts := 1, sentText := some replyMessage })
      else
        (st, { Effect.noop with sendAttempts := 1,
                                sentText := some replyMessage }) :=
    step_message_fresh st sender sendOk2 hg hb hf
  refine ⟨by rw [h1], by rw [h1], ?_⟩
  rw [h1]
  show (step st (Event.message sender sendOk2)).2.sendAttempts = 1
  rw [h2]
  cases sendOk2 <;> rfl

/-- Witness for C2 at the fresh private id `"2348012345678@c.us"`. -/
theorem c2_send_failure_no_mark_witness :
    (step (initState []) (Event.message "2348012345678@c.us" false)).1 = initState [] ∧
    (step (initState []) (Event.message "2348012345678@c.us" false)).2.sendAttempts = 1 ∧
    (step (step (initState []) (Event.message "2348012345678@c.us" false)).1
       (Event.message "2348012345678@c.us" false)).2.sendAttempts = 1 :=
  c2_send_failure_no_mark (initState []) "2348012345678@c.us" false
    (by decide) (by decide) (by decide)

/-! ## C4: which events clear the cached QR payload -/

/-- Claim C4 as stated is false on the code: the `auth_failure` handler
(src/index.js lines 127–131) touches only `isReady` and
`isInitializing`, so from a state holding a cached QR payload an
`auth_failure` event leaves the payload present, not absent. -/
theorem c4_counterexample :
    (step
      { latestQRCode := some "qr-data-url", isReady := false,
        isInitializing := false, reconnectAttempts := 0,
        repliedNumbers := [] } Event.authFailure).1.latestQRCode
      ≠ Option.none := by
  decide

/-- Claim C4 amended: the cached QR payload is cleared by `ready` and by
`disconnected`, the two events whose handlers assign `latestQRCode`;
`auth_failure` leaves the cached QR payload unchanged. -/
theorem c4_amended_qr_clearing (st : BotState) :
    (step st Event.ready).1.latestQRCode = Option.none ∧
    (step st Event.disconnected).1.latestQRCode = Option.none ∧
    (step st Event.authFailure).1.latestQRCode = st.latestQRCode := by
  refine ⟨rfl, ?_, rfl⟩
  simp only [step]
  split <;> rfl

/-! ## C8: markReplied / save / load round trip -/

/-- Claim C8: for every correspondent id added via `markReplied`, a
subsequent `hasReplied` returns true, and it still does after saving
the store and reloading it, assuming the save succeeded and the
external serializer round-trips (`parse` after `serialize` restores the
list, the contract of `JSON.parse` after `JSON.stringify`). -/
theorem c8_roundtrip_law (store : List String) (id : String)
    (parse : String → Option (List String))
    (serialize : List String → String)
    (hrt : parse (serialize (markReplied store id))
             = some (markReplied store id)) :
    hasReplied (markReplied store id) id = true ∧
    hasReplied
      (loadRepliedNumbers
        (saveRepliedNumbers serialize (markReplied store id)) parse)
      id = true := by
  refine ⟨contains_markReplied store id, ?_⟩
  show (loadRepliedNumbers (some (serialize (markReplied store id)))
          parse).contains id = true
  simp only [loadRepliedNumbers]
  rw [hrt]
  exact contains_markReplied store id

/-- Witness for C8 with a serializer/parser pair that round-trips on
the concrete store `markReplied [] "2348012345678@c.us"`. -/
theorem c8_roundtrip_law_witness :
    hasReplied (markReplied [] "2348012345678@c.us") "2348012345678@c.us" = true ∧
    hasReplied
      (loadRepliedNumbers
        (saveRepliedNumbers (fun _ => "serialized")
          (markReplied [] "2348012345678@c.us"))
        (fun _ => some (markReplied [] "2348012345678@c.us")))
      "2348012345678@c.us" = true :=
  c8_roundtrip_law [] "2348012345678@c.us"
    (fun _ => some (markReplied [] "2348012345678@c.us"))
    (fun _ => "serialized") rfl

/-! ## C9: the reinitialize timer's fire-time guard -/

/-- Claim C9: a scheduled reinitialize timer, when it fires, invokes the
collaborator's initialize exactly when at fire time the session is not
ready and no reinitialize is in flight; otherwise it changes nothing;
and once a fire has invoked initialize, the in-flight flag is set, so a
second fire invokes nothing — two reinitializations are never in flight
concurrently. -/
theorem c9_timer_fire_guard (st : BotState) :
    ((step st Event.timerFire).2.initializeCalled = true ↔
      st.isInitializing = false ∧ st.isReady = false) ∧
    ((step st Event.timerFire).2.initializeCalled = false →
      (step st Event.timerFire).1 = st) ∧
    ((step st Event.timerFire).2.initializeCalled = true →
      (step (step st Event.timerFire).1 Event.timerFire).2.initializeCalled
        = false) := by
  obtain ⟨q, r, i, a, l⟩ := st
  cases r <;> cases i <;> simp [step, Effect.noop]

/-- Witness for C9: from a quiescent disconnected state the first fire
invokes initialize, the second fire does not; from the startup state
(already initializing) a fire changes nothing. -/
theorem c9_timer_fire_guard_witness :
    (step { initState [] with isInitializing := false }
       Event.timerFire).2.initializeCalled = true ∧
    (step (step { initState [] with isInitializing := false }
       Event.timerFire).1 Event.timerFire).2.initializeCalled = false ∧
    (step (initState []) Event.timerFire).1 = initState [] :=
  ⟨(c9_timer_fire_guard { initState [] with isInitializing := false }).1.mpr
     (by decide),
   (c9_timer_fire_guard { initState [] with isInitializing := false }).2.2
     ((c9_timer_fire_guard { initState [] with isInitializing := false }).1.mpr
       (by decide)),
   (c9_timer_fire_guard (initState [])).2.1 (by decide)⟩

/-! ## C10: the exact syntactic classification rule -/

/-- Claim C10: a sender id is group iff it ends with `"@g.us"`,
broadcast iff it is exactly `"status@broadcast"`, and private in every
other case; any other shape — including ids ending in `"@broadcast"`
other than the exact sentinel, such as `"x@broadcast"` — is treated as
private and (when fresh) receives a reply attempt. -/
theorem c10_classification_rule :
    (∀ s : String, classify s = SenderClass.group ↔ jsEndsWith s "@g.us" = true) ∧
    (∀ s : String, classify s = SenderClass.broadcast ↔ s = "status@broadcast") ∧
    (∀ s : String, jsEndsWith s "@g.us" = false → s ≠ "status@broadcast" →
      classify s = SenderClass.priv) ∧
    (∀ (st : BotState) (s : String) (sendOk : Bool),
      classify s = SenderClass.priv → st.repliedNumbers.contains s = false →
      (step st (Event.message s sendOk)).2.sendAttempts = 1) ∧
    classify "x@broadcast" = SenderClass.priv := by
  have hsent : jsEndsWith "status@broadcast" "@g.us" = false := by decide
  refine ⟨fun s => ?_, fun s => ?_, fun s hg hb => ?_, fun st s sendOk hp hf => ?_, by decide⟩
  · constructor
    · intro h
      unfold classify at h
      split at h
      next hg => exact hg
      next hg => split at h <;> exact absurd h (by decide)
    · intro hg
      unfold classify
      rw [if_pos hg]
  · constructor
    · intro h
      unfold classify at h
      split at h
      next hg => exact absurd h (by decide)
      next hg =>
        split at h
        next hb => exact hb
        next hb => exact absurd h (by decide)
    · intro h
      subst h
      unfold classify
      rw [if_neg (by simp [hsent]), if_pos rfl]
  · unfold classify
    rw [if_neg (by simp [hg]), if_neg hb]
  · obtain ⟨hg, hb⟩ := classify_priv_inv hp
    rw [step_message_fresh st s sendOk hg hb hf]
    cases sendOk <;> rfl

/-- Witness for C10 at the non-sentinel broadcast-suffixed id
`"x@broadcast"`, which is private and gets a reply attempt. -/
theorem c10_classification_rule_witness :
    classify "x@broadcast" = SenderClass.priv ∧
    (step (initState []) (Event.message "x@broadcast" true)).2.sendAttempts = 1 :=
  ⟨c10_classification_rule.2.2.2.2,
   c10_classification_rule.2.2.2.1 (initState []) "x@broadcast" true
     c10_classification_rule.2.2.2.2 (by decide)⟩

/-! ## C3: the reconnect backoff policy -/

theorem step_disconnected_eq (st : BotState) :
    step st Event.disconnected =
      if st.reconnectAttempts < MAX_RECONNECT_ATTEMPTS ∧
         st.isInitializing = false then
        ({ st with isReady := false, latestQRCode := Option.none,
                   reconnectAttempts := st.reconnectAttempts + 1 },
         { Effect.noop with
             scheduledDelay :=
               some (RECONNECT_DELAY * (st.reconnectAttempts + 1)) })
      else
        ({ st with isReady := false, latestQRCode := Option.none },
         Effect.noop) := by
  simp only [step]

theorem step_attempts_le (st : BotState) (e : Event)
    (h : st.reconnectAttempts ≤ MAX_RECONNECT_ATTEMPTS) :
    (step st e).1.reconnectAttempts ≤ MAX_RECONNECT_ATTEMPTS := by
  cases e with
  | qr payload encodeOk =>
      simp only [step]
      split
      · simp
      · exact h
  | ready => simp [step]
  | authenticated => exact h
  | authFailure => exact h
  | disconnected =>
      rw [step_disconnected_eq]
      split
      next hc =>
        have h1 := hc.1
        show st.reconnectAttempts + 1 ≤ MAX_RECONNECT_ATTEMPTS
        omega
      next hc => exact h
  | loadingScreen => exact h
  | errorEvt => exact h
  | message sender sendOk =>
      simp only [step]
      split
      · exact h
      split
      · exact h
      split
      · exact h
      split
      · exact h
      · exact h
  | timerFire =>
      simp only [step]
      split
      · exact h
      · exact h
  | initResult ok =>
      simp only [step]
      split
      · exact h
      · exact h

theorem run_attempts_le (tr : List Event) (st : BotState)
    (h : st.reconnectAttempts ≤ MAX_RECONNECT_ATTEMPTS) :
    (run st tr).reconnectAttempts ≤ MAX_RECONNECT_ATTEMPTS := by
  induction tr generalizing st with
  | nil => exact h
  | cons e es ih => exact ih _ (step_attempts_le st e h)

theorem step_disc_delay (st : BotState) (d : Nat)
    (h : (step st Event.disconnected).2.scheduledDelay = some d) :
    d = RECONNECT_DELAY * (step st Event.disconnected).1.reconnectAttempts := by
  rw [step_disconnected_eq] at h ⊢
  split at h
  next hc =>
    rw [if_pos hc]
    have hd : some (RECONNECT_DELAY * (st.reconnectAttempts + 1)) = some d := h
    have heq : RECONNECT_DELAY * (st.reconnectAttempts + 1) = d :=
      Option.some.inj hd
    show d = RECONNECT_DELAY * (st.reconnectAttempts + 1)
    omega
  next hc =>
    have hno : (Option.none : Option Nat) = some d := h
    cases hno

theorem step_disc_at_max (st : BotState)
    (h : MAX_RECONNECT_ATTEMPTS ≤ st.reconnectAttempts) :
    (step st Event.disconnected).2.scheduledDelay = Option.none := by
  rw [step_disconnected_eq, if_neg]
  · rfl
  · intro hc
    exact absurd hc.1 (Nat.not_lt.mpr h)

theorem discDelays_lower_bound (n : Nat) :
    ∀ (st : BotState) (d : Nat), d ∈ discDelays st n →
      RECONNECT_DELAY * (st.reconnectAttempts + 1) ≤ d := by
  induction n with
  | zero =>
      intro st d hd
      simp [discDelays] at hd
  | succ n ih =>
      intro st d hd
      rw [discDelays, step_disconnected_eq] at hd
      by_cases hc : st.reconnectAttempts < MAX_RECONNECT_ATTEMPTS ∧
          st.isInitializing = false
      · rw [if_pos hc] at hd
        have hd2 : d ∈ [RECONNECT_DELAY * (st.reconnectAttempts + 1)] ++
            discDelays { st with isReady := false,
                                 latestQRCode := Option.none,
                                 reconnectAttempts := st.reconnectAttempts + 1 }
              n := hd
        rcases List.mem_append.mp hd2 with hd3 | hd3
        · have hdl : d = RECONNECT_DELAY * (st.reconnectAttempts + 1) :=
            List.mem_singleton.mp hd3
          omega
        · have hb : RECONNECT_DELAY * (st.reconnectAttempts + 1 + 1) ≤ d :=
            ih _ d hd3
          have hmono : RECONNECT_DELAY * (st.reconnectAttempts + 1) ≤
              RECONNECT_DELAY * (st.reconnectAttempts + 1 + 1) :=
            Nat.mul_le_mul_left _ (Nat.le_succ _)
          omega
      · rw [if_neg hc] at hd
        have hd2 : d ∈ discDelays ({ st with isReady := false, latestQRCode := Option.none } : BotState) n := hd
        exact ih ({ st with isReady := false, latestQRCode := Option.none } : BotState) d hd2

theorem discDelays_pairwise (n : Nat) : ∀ st : BotState,
    (discDelays st n).Pairwise (fun a b => a ≤ b) := by
  induction n with
  | zero => intro st; simp [discDelays]
  | succ n ih =>
      intro st
      rw [discDelays, step_disconnected_eq]
      by_cases hc : st.reconnectAttempts < MAX_RECONNECT_ATTEMPTS ∧
          st.isInitializing = false
      · rw [if_pos hc]
        show ([RECONNECT_DELAY * (st.reconnectAttempts + 1)] ++
            discDelays { st with isReady := false,
                                 latestQRCode := Option.none,
                                 reconnectAttempts := st.reconnectAttempts + 1 }
              n).Pairwise (fun a b => a ≤ b)
        rw [List.pairwise_append]
        refine ⟨List.pairwise_singleton _ _, ih _, ?_⟩
        intro x hx y hy
        have hxe : x = RECONNECT_DELAY * (st.reconnectAttempts + 1) :=
          List.mem_singleton.mp hx
        have hb : RECONNECT_DELAY * (st.reconnectAttempts + 1 + 1) ≤ y :=
          discDelays_lower_bound n _ y hy
        have hmono : RECONNECT_DELAY * (st.reconnectAttempts + 1) ≤
            RECONNECT_DELAY * (st.reconnectAttempts + 1 + 1) :=
          Nat.mul_le_mul_left _ (Nat.le_succ _)
        omega
      · rw [if_neg hc]
        show ((Option.none : Option Nat).toList ++
            discDelays { st with isReady := false,
                                 latestQRCode := Option.none } n).Pairwise
          (fun a b => a ≤ b)
        simpa using ih _

/-- Claim C3: over every event sequence from the startup state the
reconnect-attempt counter never exceeds `MAX_RECONNECT_ATTEMPTS`; every
scheduled reinitialize delay equals `RECONNECT_DELAY` times the attempt
number it was scheduled for; the delay sequence of one backoff run
(consecutive `disconnected` events) is monotonically non-decreasing;
and once the counter has reached the maximum, a further `disconnected`
event schedules no reinitialize. -/
theorem c3_reconnect_backoff_policy :
    (∀ (store : List String) (tr : List Event),
      (run (initState store) tr).reconnectAttempts
        ≤ MAX_RECONNECT_ATTEMPTS) ∧
    (∀ (st : BotState) (d : Nat),
      (step st Event.disconnected).2.scheduledDelay = some d →
      d = RECONNECT_DELAY
            * (step st Event.disconnected).1.reconnectAttempts) ∧
    (∀ (st : BotState) (n : Nat),
      (discDelays st n).Pairwise (fun a b => a ≤ b)) ∧
    (∀ st : BotState, MAX_RECONNECT_ATTEMPTS ≤ st.reconnectAttempts →
      (step st Event.disconnected).2.scheduledDelay = Option.none) :=
  ⟨fun store tr => run_attempts_le tr _ (by simp [initState]),
   fun st d h => step_disc_delay st d h,
   fun st n => discDelays_pairwise n st,
   fun st h => step_disc_at_max st h⟩

/-- Witness for C3: six straight disconnects from startup leave the
counter at the cap, a first disconnect from a quiescent state schedules
the base delay, a three-disconnect run has non-decreasing delays, and a
state at the cap schedules nothing. -/
theorem c3_reconnect_backoff_policy_witness :
    (run (initState [])
       [Event.disconnected, Event.disconnected, Event.disconnected,
        Event.disconnected, Event.disconnected,
        Event.disconnected]).reconnectAttempts ≤ MAX_RECONNECT_ATTEMPTS ∧
    (10000 : Nat) = RECONNECT_DELAY
        * (step { initState [] with isInitializing := false }
             Event.disconnected).1.reconnectAttempts ∧
    (discDelays { initState [] with isInitializing := false } 3).Pairwise
      (fun a b => a ≤ b) ∧
    (step { initState [] with isInitializing := false,
                              reconnectAttempts := 5 }
       Event.disconnected).2.scheduledDelay = Option.none :=
  ⟨c3_reconnect_backoff_policy.1 []
     [Event.disconnected, Event.disconnected, Event.disconnected,
      Event.disconnected, Event.disconnected, Event.disconnected],
   c3_reconnect_backoff_policy.2.1
     { initState [] with isInitializing := false } 10000 (by decide),
   c3_reconnect_backoff_policy.2.2.1
     { initState [] with isInitializing := false } 3,
   c3_reconnect_backoff_policy.2.2.2
     { initState [] with isInitializing := false, reconnectAttempts := 5 }
     (by decide)⟩
